import Mathlib

/-!
Verification of the history-store logic of `src/frontend/components/video-history.tsx`
(the `VideoHistory` component of GlimpseGPT).

The component keeps an in-memory list `history : HistoryItem[]` (React state) and
exposes:

* `loadHistory` — dual-backend load policy: authenticated users fetch from the
  remote store (`getVideoHistory`) and fall back to `localStorage` on error or
  on an empty/null result; anonymous users read `localStorage` directly.
* `loadFromLocalStorage` — reads the `videoHistory` slot, `JSON.parse`s it, and
  only when the parsed value is a non-empty array replaces the state; every
  failure (missing slot, parse exception, non-array, empty array) leaves the
  prior state untouched.
* `removeFromHistory` / `clearHistory` — confirmed-only writes: on a remote
  error they toast a failure and return without touching state; on success they
  filter the list / empty it.
* `handleReprocess` — dispatches one `reprocessVideo` custom event carrying
  `{url, language}` (the spec calls the fields `sourceUrl`/`language`).
* `handleOpenYoutubeVideo` — opens a URL when the URL string contains
  `youtube.com` or `youtu.be` as a substring.

The embedding is state-passing: each handler takes the prior in-memory list and
the outcome of the external calls (the Supabase result `(data, error)`, the
`localStorage` slot as `Option String`, and `JSON.parse` as an explicit
function from the slot string to an outcome) and returns the new list together
with the observable effects (remote calls issued, toasts shown, events
dispatched).
-/

namespace VideoHistory

/-- The `HistoryItem` interface of the source.  `timestamp` is epoch
milliseconds.  The spec's `HistoryEntry` field names map as:
`sourceUrl ↦ url`, `capturedAt ↦ timestamp`, `ownerId ↦ user_id`. -/
structure HistoryItem where
  id : String
  title : String
  thumbnailUrl : String
  url : String
  timestamp : Int
  language : String
  user_id : String
deriving DecidableEq

/-- Observable outcome of `JSON.parse` on the slot string, as far as the
component inspects it: the parse can throw, produce a non-array value, or
produce an array (whose elements the code casts to `HistoryItem` without any
validation, so an array outcome carries the items directly). -/
inductive JsValue where
  | notArray
  | array (items : List HistoryItem)
deriving DecidableEq

/-- A run of `JSON.parse`: either it throws (caught by the `try/catch`) or it
returns a value. -/
inductive ParseOutcome where
  | throw
  | value (v : JsValue)
deriving DecidableEq

/-- The `(data, error)` pair returned by `getVideoHistory` (the Supabase
client convention: branch on `error`, never an exception). -/
structure FetchResult where
  data : Option (List HistoryItem)
  error : Option String
deriving DecidableEq

/-- A toast notification; `destructive` records the `variant: 'destructive'`
styling used for failures. -/
structure Toast where
  title : String
  description : String
  destructive : Bool
deriving DecidableEq

/-- A call issued against the remote store (Supabase). -/
inductive RemoteCall where
  | fetchByUser (userId : String)
  | removeById (id : String)
  | clearByUser (userId : String)
deriving DecidableEq

/-- `loadFromLocalStorage` of the source: read the `videoHistory` slot
(`slot = none` models `localStorage.getItem` returning `null`); if present,
`JSON.parse` it inside `try/catch`; only when the result is an array of
positive length call `setHistory` with it.  In every other case (missing slot,
parse exception, non-array, empty array) the state is left as it was. -/
def loadFromLocalStorage (parse : String → ParseOutcome) (slot : Option String)
    (history : List HistoryItem) : List HistoryItem :=
  match slot with
  | none => history
  | some s =>
    match parse s with
    | ParseOutcome.throw => history
    | ParseOutcome.value JsValue.notArray => history
    | ParseOutcome.value (JsValue.array items) =>
      if items.length > 0 then items else history

/-- `loadHistory` of the source.  Returns the new in-memory list together with
the list of remote-store calls issued.  For `userId ≠ "anonymous"` it calls
`getVideoHistory(userId)`; on error, or on a null/empty `data`, it falls back
to `loadFromLocalStorage`; a non-empty `data` becomes the state.  For the
anonymous user it goes straight to `loadFromLocalStorage` and issues no remote
call. -/
def loadHistory (parse : String → ParseOutcome) (userId : String)
    (fetch : FetchResult) (slot : Option String) (history : List HistoryItem) :
    List HistoryItem × List RemoteCall :=
  if userId ≠ "anonymous" then
    match fetch.error with
    | some _ => (loadFromLocalStorage parse slot history, [RemoteCall.fetchByUser userId])
    | none =>
      match fetch.data with
      | some d =>
        if d.length > 0 then (d, [RemoteCall.fetchByUser userId])
        else (loadFromLocalStorage parse slot history, [RemoteCall.fetchByUser userId])
      | none => (loadFromLocalStorage parse slot history, [RemoteCall.fetchByUser userId])
  else
    (loadFromLocalStorage parse slot history, [])

/-- Result of a mutating operation: the new in-memory list, the toasts shown,
and whether the operation took its success path (`false` exactly when the
early `return` on `error` fired). -/
structure OpResult where
  history : List HistoryItem
  toasts : List Toast
  success : Bool
deriving DecidableEq

/-- `removeFromHistory` of the source: `removeVideoFromHistory(id)` returned
`err`; on error, toast a destructive failure and return with the state
untouched; on success, `setHistory(history.filter(item => item.id !== id))`
and toast a confirmation. -/
def removeFromHistory (err : Option String) (id : String)
    (history : List HistoryItem) : OpResult :=
  match err with
  | some _ =>
    ⟨history, [⟨"Error", "Failed to remove video from history", true⟩], false⟩
  | none =>
    ⟨history.filter (fun item => item.id != id),
     [⟨"Removed from History", "Video removed from your history", false⟩], true⟩

/-- `clearHistory` of the source: `clearVideoHistory(userId)` returned `err`;
on error, toast a destructive failure and return with the state untouched; on
success, `setHistory([])` and toast a confirmation. -/
def clearHistory (err : Option String) (userId : String)
    (history : List HistoryItem) : OpResult :=
  match err with
  | some _ =>
    ⟨history, [⟨"Error", "Failed to clear history", true⟩], false⟩
  | none =>
    ⟨[], [⟨"History Cleared", "Your video history has been cleared", false⟩], true⟩

/-- The `detail` payload of the `reprocessVideo` custom event (the spec's
`reprocess-requested` event with `sourceUrl ↦ url`). -/
structure ReprocessDetail where
  url : String
  language : String
deriving DecidableEq

/-- `handleReprocess` of the source: dispatch one `reprocessVideo` event with
`detail = {url: item.url, language: item.language}`, toast an acknowledgment,
and leave the history state untouched. -/
def handleReprocess (item : HistoryItem) (history : List HistoryItem) :
    List ReprocessDetail × List Toast × List HistoryItem :=
  ([⟨item.url, item.language⟩],
   [⟨"Reprocessing Video", "Reprocessing \"" ++ item.title ++ "\"", false⟩],
   history)

/-- Prefix test on character lists, used to model JavaScript's
`String.prototype.includes`. -/
def charsStartWith : List Char → List Char → Bool
  | _, [] => true
  | [], _ :: _ => false
  | c :: cs, p :: ps => c == p && charsStartWith cs ps

/-- Substring containment on character lists. -/
def charsContain : List Char → List Char → Bool
  | [], pat => pat.isEmpty
  | c :: cs, pat => charsStartWith (c :: cs) pat || charsContain cs pat

/-- JavaScript's `s.includes(pat)`: substring containment over the whole
string. -/
def jsIncludes (s pat : String) : Bool :=
  charsContain s.toList pat.toList

/-- `handleOpenYoutubeVideo` of the source: `window.open(url)` exactly when
`url && url.includes('youtube.com') || url.includes('youtu.be')` — with
JavaScript precedence `(url && A) || B`, and `url` truthy meaning non-empty.
Returns the opened URL, or `none` when no external open occurs. -/
def handleOpenYoutubeVideo (url : String) : Option String :=
  if (url != "" && jsIncludes url "youtube.com") || jsIncludes url "youtu.be" then
    some url
  else
    none

/-- Modelled from the spec: `LocalCache.read()` (§4.2), which is not a
separate function in the source (the source fuses read and state update in
`loadFromLocalStorage`).  It fails closed: any deserialization error or type
mismatch — payload not a non-empty sequence — yields the empty list. -/
def localCacheRead (parse : String → ParseOutcome) (slot : Option String) :
    List HistoryItem :=
  match slot with
  | none => []
  | some s =>
    match parse s with
    | ParseOutcome.throw => []
    | ParseOutcome.value JsValue.notArray => []
    | ParseOutcome.value (JsValue.array items) =>
      if items.length > 0 then items else []

/-- Modelled from the spec: the host component of a URL (§3 `sourceUrl` talks
about "the URL's host").  Everything after the first `://`, up to the first
`/`, `?`, `#` or `:`. -/
def dropToAuthority : List Char → List Char
  | [] => []
  | ':' :: '/' :: '/' :: rest => rest
  | _ :: rest => dropToAuthority rest

/-- Host characters: the authority prefix up to a delimiter. -/
def takeHostChars : List Char → List Char
  | [] => []
  | c :: cs =>
    if c == '/' || c == '?' || c == '#' || c == ':' then []
    else c :: takeHostChars cs

/-- Modelled from the spec: host extraction for the external-open whitelist
check. -/
def specUrlHost (url : String) : String :=
  String.mk (takeHostChars (dropToAuthority url.toList))

/-- Modelled from the spec: the whitelisted host patterns for the
external-open action (the YouTube hosts the source's strings refer to). -/
def specWhitelistedHost (host : String) : Bool :=
  host == "youtube.com" || host == "www.youtube.com" ||
  host == "m.youtube.com" || host == "youtu.be"

/-- A parse function that always throws: models `JSON.parse` on a slot whose
content is invalid JSON. -/
def parseThrow (_ : String) : ParseOutcome := ParseOutcome.throw

/-- A sample history entry for concrete instantiations. -/
def sampleItem : HistoryItem :=
  ⟨"vid-1", "First video", "", "https://youtu.be/abc", 0, "en", "user-1"⟩

/-- A second sample entry, with a distinct id. -/
def sampleItem2 : HistoryItem :=
  ⟨"vid-2", "Second video", "", "https://www.youtube.com/watch?v=x", 1, "fr", "user-1"⟩

/-- A parse function returning a non-empty array: models `JSON.parse` on a
slot holding a valid one-entry history. -/
def parseOneItem (_ : String) : ParseOutcome :=
  ParseOutcome.value (JsValue.array [sampleItem])

/-- The local-read path expressed through the spec's `LocalCache.read()`:
the state update keeps the prior list exactly when the read fails closed to
the empty list, and otherwise adopts the read result. -/
theorem loadFromLocalStorage_read (parse : String → ParseOutcome)
    (slot : Option String) (prior : List HistoryItem) :
    loadFromLocalStorage parse slot prior =
      if localCacheRead parse slot = [] then prior
      else localCacheRead parse slot := by
  cases slot with
  | none => simp [loadFromLocalStorage, localCacheRead]
  | some s =>
    cases h : parse s with
    | throw => simp [loadFromLocalStorage, localCacheRead, h]
    | value v =>
      cases v with
      | notArray => simp [loadFromLocalStorage, localCacheRead, h]
      | array items =>
        cases items with
        | nil => simp [loadFromLocalStorage, localCacheRead, h]
        | cons x xs => simp [loadFromLocalStorage, localCacheRead, h]

/-- Claim C2: write-failure non-mutation — when `removeFromHistory` is handed
a remote error, and likewise when `clearHistory` is, the in-memory list after
the call equals (hence is set-equal to) the list before the call. -/
theorem C2_write_failure_non_mutation (e₁ e₂ id userId : String)
    (history : List HistoryItem) :
    (removeFromHistory (some e₁) id history).history = history ∧
      (clearHistory (some e₂) userId history).history = history :=
  ⟨rfl, rfl⟩

/-- Claim C7: reprocess fire-and-forget — invoking the reprocess trigger on an
entry emits exactly one `reprocessVideo` event whose payload is the entry's
`url` (the spec's `sourceUrl`) and `language`, and leaves the in-memory
history list unchanged. -/
theorem C7_reprocess_fire_and_forget (item : HistoryItem)
    (history : List HistoryItem) :
    (handleReprocess item history).1 = [⟨item.url, item.language⟩] ∧
      (handleReprocess item history).2.2 = history :=
  ⟨rfl, rfl⟩

/-- Claim C9: clear idempotence — a successful clear reports success and
empties the in-memory list, and a second successful clear run on the result
again reports success and leaves the list empty. -/
theorem C9_clear_idempotent (userId : String) (history : List HistoryItem) :
    (clearHistory none userId history).success = true ∧
      (clearHistory none userId history).history = [] ∧
      (clearHistory none userId (clearHistory none userId history).history).success = true ∧
      (clearHistory none userId (clearHistory none userId history).history).history = [] :=
  ⟨rfl, rfl, rfl, rfl⟩

/-- Claim C6: anonymous isolation — a load for the anonymous user issues no
remote-store call at all, and its result is exactly the local-read path. -/
theorem C6_anonymous_isolation (parse : String → ParseOutcome)
    (fetch : FetchResult) (slot : Option String) (prior : List HistoryItem) :
    (loadHistory parse "anonymous" fetch slot prior).2 = [] ∧
      (loadHistory parse "anonymous" fetch slot prior).1 =
        loadFromLocalStorage parse slot prior :=
  ⟨rfl, rfl⟩

/-- Claim C1 counterexample: with a non-empty prior in-memory list and an
absent local slot, an authenticated load whose remote fetch errors keeps the
prior list, which differs from `LocalCache.read()`'s result (the empty
list). -/
theorem C1_counterexample :
    (loadHistory parseThrow "user-1" ⟨none, some "network error"⟩ none
        [sampleItem]).1 ≠
      localCacheRead parseThrow none := by
  decide

/-- Claim C1 (amended): for an authenticated user whose remote fetch errors,
`load` returns `LocalCache.read()`'s result whenever that result is non-empty,
and keeps the prior in-memory list when the read fails closed to the empty
list — so on a first load (empty prior list) it returns exactly
`LocalCache.read()`. -/
theorem C1_amended_error_fallback (parse : String → ParseOutcome)
    (userId : String) (fetch : FetchResult) (slot : Option String)
    (prior : List HistoryItem) (e : String)
    (hu : userId ≠ "anonymous") (he : fetch.error = some e) :
    (loadHistory parse userId fetch slot prior).1 =
      if localCacheRead parse slot = [] then prior
      else localCacheRead parse slot := by
  obtain ⟨d, err⟩ := fetch
  replace he : err = some e := he
  subst he
  unfold loadHistory
  rw [if_pos hu]
  exact loadFromLocalStorage_read parse slot prior

/-- Claim C1 (amended) witness at a concrete authenticated fetch error with a
valid non-empty local slot. -/
theorem C1_amended_error_fallback_witness :
    ("user-1" : String) ≠ "anonymous" ∧
      (loadHistory parseOneItem "user-1" ⟨none, some "network error"⟩
          (some "slot") []).1 =
        (if localCacheRead parseOneItem (some "slot") = [] then
          ([] : List HistoryItem)
         else localCacheRead parseOneItem (some "slot")) :=
  ⟨by decide,
   C1_amended_error_fallback parseOneItem "user-1" ⟨none, some "network error"⟩
     (some "slot") [] "network error" (by decide) rfl⟩

/-- Claim C3: write-success mutation — under the data-model invariant that ids
are unique in the list, a successful `removeFromHistory e.id` on a list
containing `e` removes exactly `e` and preserves the relative order of all
other entries. -/
theorem C3_remove_success (history : List HistoryItem) (e : HistoryItem)
    (hnd : (history.map (fun x => x.id)).Nodup) (he : e ∈ history) :
    ∃ l₁ l₂, history = l₁ ++ e :: l₂ ∧
      (removeFromHistory none e.id history).history = l₁ ++ l₂ := by
  obtain ⟨l₁, l₂, rfl⟩ := List.append_of_mem he
  refine ⟨l₁, l₂, rfl, ?_⟩
  simp only [List.map_append, List.map_cons, List.nodup_append] at hnd
  obtain ⟨hn₁, hn₂, hdisj⟩ := hnd
  rw [List.nodup_cons] at hn₂
  obtain ⟨hmem₂, _⟩ := hn₂
  have hmem₁ : e.id ∉ l₁.map (fun x => x.id) := by
    intro hmem
    exact hdisj hmem (List.mem_cons_self _ _)
  have hne₁ : ∀ x ∈ l₁, (x.id != e.id) = true := by
    intro x hx
    refine bne_iff_ne.mpr fun hxe => hmem₁ ?_
    rw [← hxe]
    exact List.mem_map_of_mem _ hx
  have hne₂ : ∀ x ∈ l₂, (x.id != e.id) = true := by
    intro x hx
    refine bne_iff_ne.mpr fun hxe => hmem₂ ?_
    rw [← hxe]
    exact List.mem_map_of_mem _ hx
  show (l₁ ++ e :: l₂).filter (fun item => item.id != e.id) = l₁ ++ l₂
  rw [List.filter_append, List.filter_cons, List.filter_eq_self.mpr hne₁,
    List.filter_eq_self.mpr hne₂]
  simp

/-- Claim C3 witness on a concrete two-entry list with distinct ids. -/
theorem C3_remove_success_witness :
    ([sampleItem, sampleItem2].map (fun x => x.id)).Nodup ∧
      (∃ l₁ l₂, [sampleItem, sampleItem2] = l₁ ++ sampleItem :: l₂ ∧
        (removeFromHistory none sampleItem.id
            [sampleItem, sampleItem2]).history = l₁ ++ l₂) :=
  ⟨by decide,
   C3_remove_success [sampleItem, sampleItem2] sampleItem (by decide) (by decide)⟩

/-- Claim C4: an authenticated fetch that succeeds (`error = null`) but
returns a null or empty list is not taken as final — `load`'s result is
exactly the local-read path's result. -/
theorem C4_empty_result_fallback (parse : String → ParseOutcome)
    (userId : String) (fetch : FetchResult) (slot : Option String)
    (prior : List HistoryItem)
    (hu : userId ≠ "anonymous") (he : fetch.error = none)
    (hd : fetch.data = none ∨ fetch.data = some []) :
    (loadHistory parse userId fetch slot prior).1 =
      loadFromLocalStorage parse slot prior := by
  obtain ⟨d, err⟩ := fetch
  replace he : err = none := he
  replace hd : d = none ∨ d = some [] := hd
  subst he
  unfold loadHistory
  rw [if_pos hu]
  rcases hd with hd | hd <;> subst hd <;> rfl

/-- Claim C4 witness at a concrete empty-but-successful remote result. -/
theorem C4_empty_result_fallback_witness :
    ("user-1" : String) ≠ "anonymous" ∧
      (loadHistory parseOneItem "user-1" ⟨some [], none⟩ (some "slot") []).1 =
        loadFromLocalStorage parseOneItem (some "slot") [] :=
  ⟨by decide,
   C4_empty_result_fallback parseOneItem "user-1" ⟨some [], none⟩ (some "slot")
     [] (by decide) rfl (Or.inr rfl)⟩

/-- Claim C5 counterexample: with a corrupt local slot (a string `JSON.parse`
throws on) and a non-empty prior in-memory list, an anonymous load keeps the
prior list instead of returning the empty list. -/
theorem C5_counterexample :
    (loadHistory parseThrow "anonymous" ⟨none, none⟩ (some "not json")
        [sampleItem]).1 ≠
      ([] : List HistoryItem) := by
  decide

/-- Claim C5 (amended): given a local slot whose content is invalid JSON or a
non-sequence value, an anonymous `load` absorbs the deserialization failure —
it keeps the prior in-memory list unchanged, so from the initial empty state
it returns the empty list, and no error reaches the caller. -/
theorem C5_amended_corrupt_cache (parse : String → ParseOutcome)
    (fetch : FetchResult) (s : String) (prior : List HistoryItem)
    (hp : parse s = ParseOutcome.throw ∨
      parse s = ParseOutcome.value JsValue.notArray) :
    (loadHistory parse "anonymous" fetch (some s) prior).1 = prior ∧
      (loadHistory parse "anonymous" fetch (some s) []).1 = [] := by
  have hgen : ∀ l : List HistoryItem,
      (loadHistory parse "anonymous" fetch (some s) l).1 = l := by
    intro l
    show loadFromLocalStorage parse (some s) l = l
    rcases hp with hp | hp <;> simp [loadFromLocalStorage, hp]
  exact ⟨hgen prior, hgen []⟩

/-- Claim C5 (amended) witness at a concrete corrupt slot. -/
theorem C5_amended_corrupt_cache_witness :
    (parseThrow "bad" = ParseOutcome.throw ∨
        parseThrow "bad" = ParseOutcome.value JsValue.notArray) ∧
      (loadHistory parseThrow "anonymous" ⟨none, none⟩ (some "bad")
          [sampleItem]).1 = [sampleItem] ∧
      (loadHistory parseThrow "anonymous" ⟨none, none⟩ (some "bad") []).1 = [] :=
  ⟨Or.inl rfl,
   (C5_amended_corrupt_cache parseThrow ⟨none, none⟩ "bad" [sampleItem]
     (Or.inl rfl)).1,
   (C5_amended_corrupt_cache parseThrow ⟨none, none⟩ "bad" [sampleItem]
     (Or.inl rfl)).2⟩

/-- A URL whose host is not whitelisted but whose query string mentions
`youtube.com`. -/
def suspiciousUrl : String := "https://evil.example/page?video=youtube.com"

/-- Claim C8 counterexample: the external-open action opens a URL whose host
(`evil.example`) is not in the whitelisted host set, because the code checks
substring containment over the whole URL rather than the host. -/
theorem C8_counterexample :
    specWhitelistedHost (specUrlHost suspiciousUrl) = false ∧
      handleOpenYoutubeVideo suspiciousUrl = some suspiciousUrl := by
  constructor
  · decide
  · decide

/-- Claim C8 (amended): the external-open action opens the URL exactly when
the URL string contains `youtube.com` or `youtu.be` as a substring — substring
containment over the whole URL, not host matching. -/
theorem C8_amended_substring_containment (url : String) :
    (handleOpenYoutubeVideo url).isSome =
      (jsIncludes url "youtube.com" || jsIncludes url "youtu.be") := by
  unfold handleOpenYoutubeVideo
  by_cases h : url = ""
  · subst h
    decide
  · have hb : (url != "") = true := bne_iff_ne.mpr h
    rw [hb]
    cases hA : jsIncludes url "youtube.com" <;>
      cases hB : jsIncludes url "youtu.be" <;>
        simp [hA, hB]

/-- The local-read path never turns a non-empty prior list into an empty
one. -/
theorem loadFromLocalStorage_ne_nil (parse : String → ParseOutcome)
    (slot : Option String) (prior : List HistoryItem) (h : prior ≠ []) :
    loadFromLocalStorage parse slot prior ≠ [] := by
  rw [loadFromLocalStorage_read]
  split
  · exact h
  · assumption

/-- `loadHistory` never turns a non-empty prior list into an empty one, on any
branch of the load policy. -/
theorem loadHistory_preserves_nonempty (parse : String → ParseOutcome)
    (userId : String) (fetch : FetchResult) (slot : Option String)
    (prior : List HistoryItem) (h : prior ≠ []) :
    (loadHistory parse userId fetch slot prior).1 ≠ [] := by
  unfold loadHistory
  split
  · split
    · exact loadFromLocalStorage_ne_nil parse slot prior h
    · split
      · split
        · rename_i hd
          exact List.ne_nil_of_length_pos hd
        · exact loadFromLocalStorage_ne_nil parse slot prior h
      · exact loadFromLocalStorage_ne_nil parse slot prior h
  · exact loadFromLocalStorage_ne_nil parse slot prior h

/-- Claim C10: when the local slot is absent or parses to an empty array, the
local-read path leaves the in-memory list unchanged; consequently a load never
replaces a non-empty displayed list with an empty one. -/
theorem C10_local_read_noop (parse : String → ParseOutcome)
    (slot : Option String) (prior : List HistoryItem) :
    ((slot = none ∨
        ∃ s, slot = some s ∧ parse s = ParseOutcome.value (JsValue.array [])) →
        loadFromLocalStorage parse slot prior = prior) ∧
      (prior ≠ [] → ∀ (userId : String) (fetch : FetchResult),
        (loadHistory parse userId fetch slot prior).1 ≠ []) := by
  constructor
  · rintro (rfl | ⟨s, rfl, hs⟩)
    · rfl
    · simp [loadFromLocalStorage, hs]
  · intro h userId fetch
    exact loadHistory_preserves_nonempty parse userId fetch slot prior h

/-- Claim C10 witness: absent slot with a non-empty prior list, and an
error-fallback load from the same state. -/
theorem C10_local_read_noop_witness :
    loadFromLocalStorage parseThrow none [sampleItem] = [sampleItem] ∧
      (loadHistory parseThrow "user-1" ⟨none, some "network error"⟩ none
          [sampleItem]).1 ≠ [] :=
  ⟨(C10_local_read_noop parseThrow none [sampleItem]).1 (Or.inl rfl),
   (C10_local_read_noop parseThrow none [sampleItem]).2 (by decide) "user-1"
     ⟨none, some "network error"⟩⟩

end VideoHistory
